import Mathlib

/-!
Verification of the rendering/physics timing logic exercised by
`test_env_rendering_logic.py` and of the `DeformableObjectCfg` binding in
`deformable_object_cfg.py`.

The test registers a physics callback and a render callback with the
simulator and, after every environment step, checks arithmetic relations
between the physics-step count, the render-step count and the elapsed
simulated times.  The simulator's stepping loop itself is external to the
given sources; it is modelled here from the specification's glossary
("Decimation: number of physics steps per environment step", "Render
interval: number of physics steps per rendering update", "render time =
render_steps × dt × R").  Simulated time is modelled with exact rationals.
-/

namespace IsaacLabRendering

/-- The four mutable accumulators kept on the test instance
(`test_env_rendering_logic.py`, lines 124-128). -/
structure TestCounters where
  physics_time : ℚ
  render_time : ℚ
  num_physics_steps : ℕ
  num_render_steps : ℕ
  deriving Repr, DecidableEq

/-- `TestEnvRenderingLogic._physics_callback` (lines 191-194): called at every
physics step; adds the physics `dt` to `physics_time` and increments
`num_physics_steps`. -/
def physicsCallback (dt : ℚ) (s : TestCounters) : TestCounters :=
  { s with
    physics_time := s.physics_time + dt
    num_physics_steps := s.num_physics_steps + 1 }

/-- `TestEnvRenderingLogic._render_callback` (lines 196-199): called at every
render step; adds the event payload `dt` to `render_time` and increments
`num_render_steps`. -/
def renderCallback (dt : ℚ) (s : TestCounters) : TestCounters :=
  { s with
    render_time := s.render_time + dt
    num_render_steps := s.num_render_steps + 1 }

/-- Simulator-side state: the total number of physics steps taken since the
environment was created, together with the test counters updated through the
registered callbacks. -/
structure SimState where
  physicsCount : ℕ
  test : TestCounters
  deriving Repr, DecidableEq

/-- Modelled from the spec: one physics step of the external simulator's
stepping loop (the loop itself lives in the host platform, outside the given
sources).  The simulator advances physics by `dt` and fires the registered
physics callback; every `R` physics steps ("Render interval: number of
physics steps per rendering update") it performs a rendering update and fires
the registered render callback with an event whose `dt` payload covers the
`R` physics steps since the previous render, i.e. `dt * R` ("render time =
render_steps × dt × R"). -/
def simPhysicsStep (dt : ℚ) (R : ℕ) (s : SimState) : SimState :=
  let count := s.physicsCount + 1
  let t := physicsCallback dt s.test
  if count % R = 0 then
    { physicsCount := count, test := renderCallback (dt * R) t }
  else
    { physicsCount := count, test := t }

/-- Modelled from the spec: one call to `env.step` performs `D` physics steps,
where `D` is the configured decimation ("Decimation: number of physics steps
per environment step"). -/
def envStep (D : ℕ) (dt : ℚ) (R : ℕ) (s : SimState) : SimState :=
  (simPhysicsStep dt R)^[D] s

/-- The three environment flavors exercised by the test (line 120). -/
inductive EnvType where
  | manager_based_env
  | manager_based_rl_env
  | direct_rl_env
  deriving Repr, DecidableEq

/-- The timing-relevant fields of an environment configuration: the
decimation, the simulation timestep `sim.dt` and the render interval
`sim.render_interval`. -/
structure EnvCfg where
  decimation : ℕ
  dt : ℚ
  render_interval : ℕ
  deriving Repr, DecidableEq

/-- Configuration built by `create_manager_based_env` (lines 43-56):
`decimation = 4`, `SimulationCfg(dt=0.005, render_interval=render_interval)`. -/
def manager_based_env_cfg (render_interval : ℕ) : EnvCfg :=
  { decimation := 4, dt := 5 / 1000, render_interval := render_interval }

/-- Configuration built by `create_manager_based_rl_env` (lines 59-72):
`decimation = 4`, `SimulationCfg(dt=0.005, render_interval=render_interval)`. -/
def manager_based_rl_env_cfg (render_interval : ℕ) : EnvCfg :=
  { decimation := 4, dt := 5 / 1000, render_interval := render_interval }

/-- Configuration built by `create_direct_rl_env` (lines 75-106):
`decimation = 4`, `SimulationCfg(dt=0.005, render_interval=render_interval)`. -/
def direct_rl_env_cfg (render_interval : ℕ) : EnvCfg :=
  { decimation := 4, dt := 5 / 1000, render_interval := render_interval }

/-- The configuration the test constructs for a given flavor and render
interval (lines 134-139). -/
def envCfg : EnvType → ℕ → EnvCfg
  | .manager_based_env, R => manager_based_env_cfg R
  | .manager_based_rl_env, R => manager_based_rl_env_cfg R
  | .direct_rl_env, R => direct_rl_env_cfg R

/-- The render intervals iterated over by the test (line 121). -/
def testedRenderIntervals : List ℕ := [1, 2, 4, 8, 10]

/-- The environment flavors iterated over by the test (line 120). -/
def testedEnvTypes : List EnvType :=
  [.manager_based_env, .manager_based_rl_env, .direct_rl_env]

/-- The decimation values appearing across all sub-tests (every flavor
combined with every tested render interval). -/
def testedDecimations : List ℕ :=
  (testedEnvTypes.map (fun t => testedRenderIntervals.map
    (fun R => (envCfg t R).decimation))).flatten

/-- The reset performed at the start of every sub-test (lines 124-128): all
four accumulators are set back to zero, whatever they held before. -/
def resetCounters (_s : TestCounters) : TestCounters :=
  { physics_time := 0, render_time := 0, num_physics_steps := 0, num_render_steps := 0 }

/-- The state at the start of a sub-test: a fresh stage and environment
(lines 131-139), so the simulator physics count is `0`, and the test counters
just reset from whatever the previous sub-test left (`s`). -/
def subTestStart (s : TestCounters) : SimState :=
  { physicsCount := 0, test := resetCounters s }

/-- The test counters after `n` calls to `env.step` within a sub-test that
started with previous counter values `s`. -/
def stateAfter (cfg : EnvCfg) (n : ℕ) (s : TestCounters) : TestCounters :=
  ((envStep cfg.decimation cfg.dt cfg.render_interval)^[n] (subTestStart s)).test

end IsaacLabRendering

namespace IsaacLabAssets

/-- The concrete asset implementation classes relevant here. -/
inductive AssetClass where
  | assetBase
  | deformableObject
  deriving Repr, DecidableEq

/-- Modelled from the spec: the generic asset configuration base
`AssetBaseCfg` (its file `asset_base_cfg.py` is not among the given sources);
per the spec it "associates a configuration record with a concrete asset
class (`class_type`)". -/
structure AssetBaseCfg where
  class_type : AssetClass := .assetBase
  deriving Repr, DecidableEq

/-- `DeformableObjectCfg` (`deformable_object_cfg.py`, lines 14-18): inherits
from `AssetBaseCfg` and binds `class_type` to the `DeformableObject`
implementation class, adding nothing else. -/
structure DeformableObjectCfg extends AssetBaseCfg where
  class_type := AssetClass.deformableObject

end IsaacLabAssets

namespace IsaacLabRendering

/-- `_get_dones` of the direct RL test environment (lines 103-104): returns
two length-1 all-`False` boolean tensors (terminated, time-out), modelled as
boolean lists. -/
def get_dones : List Bool × List Bool :=
  (List.replicate 1 false, List.replicate 1 false)

/-- A reset is triggered after a step exactly when some entry of either done
tensor is true. -/
def resetTriggered (d : List Bool × List Bool) : Bool :=
  d.1.any id || d.2.any id

/-- The number of environment steps among the first `n` after which the done
signal of the direct RL test environment triggers a reset. -/
def numResetsIn (n : ℕ) : ℕ :=
  (List.range n).countP (fun _ => resetTriggered get_dones)

end IsaacLabRendering

namespace IsaacLabRendering

/-- The all-zero counters and fresh simulator state a sub-test begins from. -/
def initState : SimState :=
  { physicsCount := 0,
    test := { physics_time := 0, render_time := 0,
              num_physics_steps := 0, num_render_steps := 0 } }

theorem subTestStart_eq (s : TestCounters) : subTestStart s = initState := rfl

/-- Closed form of `k` iterations of the modelled physics step from the fresh
state: after `k` physics steps the counters record `k` physics steps taking
`k * dt` of time and `k / R` renders taking `(k / R) * (dt * R)` of time. -/
theorem simPhysicsStep_iterate (dt : ℚ) (R : ℕ) (k : ℕ) :
    (simPhysicsStep dt R)^[k] initState =
      { physicsCount := k,
        test := { physics_time := (k : ℚ) * dt,
                  render_time := ((k / R : ℕ) : ℚ) * (dt * (R : ℚ)),
                  num_physics_steps := k,
                  num_render_steps := k / R } } := by
  induction k with
  | zero =>
    simp [initState, Nat.zero_div]
  | succ k ih =>
    rw [Function.iterate_succ_apply', ih]
    have hdiv : (k + 1) / R = k / R + if R ∣ k + 1 then 1 else 0 := Nat.succ_div k R
    have hmod : ((k + 1) % R = 0) ↔ R ∣ k + 1 := (Nat.dvd_iff_mod_eq_zero).symm
    by_cases h : R ∣ k + 1
    · have h0 : (k + 1) % R = 0 := hmod.mpr h
      have h1 : (k + 1) / R = k / R + 1 := by rw [hdiv, if_pos h]
      simp only [simPhysicsStep, physicsCallback, renderCallback, h0, if_pos]
      refine SimState.mk.injEq .. ▸ ⟨rfl, ?_⟩
      rw [h1]
      refine TestCounters.mk.injEq .. ▸ ⟨?_, ?_, rfl, rfl⟩
      · push_cast; ring
      · push_cast; ring
    · have h0 : ¬ (k + 1) % R = 0 := fun hc => h (hmod.mp hc)
      have h1 : (k + 1) / R = k / R := by rw [hdiv, if_neg h, Nat.add_zero]
      simp only [simPhysicsStep, physicsCallback, h0, if_neg, ite_false]
      refine SimState.mk.injEq .. ▸ ⟨rfl, ?_⟩
      rw [h1]
      refine TestCounters.mk.injEq .. ▸ ⟨?_, rfl, rfl, rfl⟩
      push_cast; ring

/-- Closed form of the counters after `n` environment steps of a sub-test:
`n * D` physics steps of `dt` each and `n * D / R` renders of `dt * R` each. -/
theorem stateAfter_eq (cfg : EnvCfg) (n : ℕ) (s : TestCounters) :
    stateAfter cfg n s =
      { physics_time := ((n * cfg.decimation : ℕ) : ℚ) * cfg.dt,
        render_time := ((n * cfg.decimation / cfg.render_interval : ℕ) : ℚ) *
          (cfg.dt * (cfg.render_interval : ℚ)),
        num_physics_steps := n * cfg.decimation,
        num_render_steps := n * cfg.decimation / cfg.render_interval } := by
  unfold stateAfter envStep
  rw [subTestStart_eq, ← Function.iterate_mul, Nat.mul_comm cfg.decimation n,
    simPhysicsStep_iterate cfg.dt cfg.render_interval (n * cfg.decimation)]

end IsaacLabRendering

namespace IsaacLabRendering

/-- Claim C1: for every environment flavor and every tested render interval
`R`, after `i+1` calls to `env.step` (for every `i` from 0 to 49), the number
of physics callback invocations counted in `num_physics_steps` equals
`(i+1) * D`, where `D` is the configured decimation. -/
theorem claim1_physics_step_count (t : EnvType) (R : ℕ)
    (hR : R ∈ testedRenderIntervals) (i : ℕ) (hi : i < 50) (s : TestCounters) :
    (stateAfter (envCfg t R) (i + 1) s).num_physics_steps =
      (i + 1) * (envCfg t R).decimation := by
  rw [stateAfter_eq]

/-- Claim C1 witness: the physics-step count matches at the concrete sub-test
`(direct_rl_env, R = 2)` after step `i = 3`. -/
theorem claim1_physics_step_count_witness :
    2 ∈ testedRenderIntervals ∧ 3 < 50 ∧
      (stateAfter (envCfg .direct_rl_env 2) (3 + 1) ⟨1, 2, 3, 4⟩).num_physics_steps =
        (3 + 1) * (envCfg .direct_rl_env 2).decimation :=
  ⟨by decide, by decide,
    claim1_physics_step_count .direct_rl_env 2 (by decide) 3 (by decide) ⟨1, 2, 3, 4⟩⟩

/-- Claim C2: for every environment flavor and every tested render interval
`R`, after `i+1` calls to `env.step` (for every `i` from 0 to 49), the number
of render callback invocations counted in `num_render_steps` equals the floor
division `(i+1) * D / R`, where `D` is the configured decimation. -/
theorem claim2_render_step_count (t : EnvType) (R : ℕ)
    (hR : R ∈ testedRenderIntervals) (i : ℕ) (hi : i < 50) (s : TestCounters) :
    (stateAfter (envCfg t R) (i + 1) s).num_render_steps =
      (i + 1) * (envCfg t R).decimation / R := by
  have hRI : (envCfg t R).render_interval = R := by cases t <;> rfl
  rw [stateAfter_eq, hRI]

/-- Claim C2 witness: the render-step count matches at the concrete sub-test
`(manager_based_env, R = 10)` after step `i = 2`. -/
theorem claim2_render_step_count_witness :
    10 ∈ testedRenderIntervals ∧ 2 < 50 ∧
      (stateAfter (envCfg .manager_based_env 10) (2 + 1) ⟨1, 2, 3, 4⟩).num_render_steps =
        (2 + 1) * (envCfg .manager_based_env 10).decimation / 10 :=
  ⟨by decide, by decide,
    claim2_render_step_count .manager_based_env 10 (by decide) 2 (by decide) ⟨1, 2, 3, 4⟩⟩

/-- Claim C3: for every environment flavor and every tested render interval,
after every call to `env.step` the accumulated `physics_time` equals
`num_physics_steps` multiplied by the configured simulation timestep `dt`. -/
theorem claim3_physics_time (t : EnvType) (R : ℕ)
    (hR : R ∈ testedRenderIntervals) (i : ℕ) (hi : i < 50) (s : TestCounters) :
    (stateAfter (envCfg t R) (i + 1) s).physics_time =
      ((stateAfter (envCfg t R) (i + 1) s).num_physics_steps : ℚ) * (envCfg t R).dt := by
  simp only [stateAfter_eq]

/-- Claim C3 witness: the physics time matches at the concrete sub-test
`(manager_based_rl_env, R = 4)` after step `i = 1`. -/
theorem claim3_physics_time_witness :
    4 ∈ testedRenderIntervals ∧ 1 < 50 ∧
      (stateAfter (envCfg .manager_based_rl_env 4) (1 + 1) ⟨1, 2, 3, 4⟩).physics_time =
        ((stateAfter (envCfg .manager_based_rl_env 4) (1 + 1) ⟨1, 2, 3, 4⟩).num_physics_steps : ℚ) *
          (envCfg .manager_based_rl_env 4).dt :=
  ⟨by decide, by decide,
    claim3_physics_time .manager_based_rl_env 4 (by decide) 1 (by decide) ⟨1, 2, 3, 4⟩⟩

/-- Claim C4: for every environment flavor and every tested render interval
`R`, after every call to `env.step` the accumulated `render_time` equals
`num_render_steps` multiplied by the configured simulation timestep `dt`
multiplied by `R`. -/
theorem claim4_render_time (t : EnvType) (R : ℕ)
    (hR : R ∈ testedRenderIntervals) (i : ℕ) (hi : i < 50) (s : TestCounters) :
    (stateAfter (envCfg t R) (i + 1) s).render_time =
      ((stateAfter (envCfg t R) (i + 1) s).num_render_steps : ℚ) *
        (envCfg t R).dt * (R : ℚ) := by
  have hRI : (envCfg t R).render_interval = R := by cases t <;> rfl
  simp only [stateAfter_eq, hRI]
  ring

/-- Claim C4 witness: the render time matches at the concrete sub-test
`(direct_rl_env, R = 8)` after step `i = 0`. -/
theorem claim4_render_time_witness :
    8 ∈ testedRenderIntervals ∧ 0 < 50 ∧
      (stateAfter (envCfg .direct_rl_env 8) (0 + 1) ⟨1, 2, 3, 4⟩).render_time =
        ((stateAfter (envCfg .direct_rl_env 8) (0 + 1) ⟨1, 2, 3, 4⟩).num_render_steps : ℚ) *
          (envCfg .direct_rl_env 8).dt * (8 : ℚ) :=
  ⟨by decide, by decide,
    claim4_render_time .direct_rl_env 8 (by decide) 0 (by decide) ⟨1, 2, 3, 4⟩⟩

end IsaacLabRendering

namespace IsaacLabRendering

/-- Claim C5, counterexample: the claim asserts that at least two distinct
decimation values occur among the environment configurations of the
sub-tests; in fact every configuration (all three flavors, all tested render
intervals) sets `decimation = 4`, so no two distinct values exist. -/
theorem claim5_no_two_decimations :
    ¬ ∃ d₁, d₁ ∈ testedDecimations ∧ ∃ d₂, d₂ ∈ testedDecimations ∧ d₁ ≠ d₂ := by
  decide

/-- Claim C5 (amended): the timing test uses a single decimation value:
every environment configuration, across the three flavors and every render
interval, sets `decimation = 4`; only the render interval varies, taking five
distinct values. -/
theorem claim5_single_decimation :
    (∀ (t : EnvType) (R : ℕ), (envCfg t R).decimation = 4) ∧
      testedRenderIntervals.Nodup ∧ testedRenderIntervals.length = 5 := by
  refine ⟨fun t R => ?_, by decide, by decide⟩
  cases t <;> rfl

/-- Claim C6: at the start of every sub-test (any flavor, any render
interval), whatever values `s` the accumulators held from the previous
sub-test, all four are reset: `physics_time` and `render_time` to `0` and
`num_physics_steps` and `num_render_steps` to `0`, before any environment
step of that sub-test runs. -/
theorem claim6_counters_reset (t : EnvType) (R : ℕ) (s : TestCounters) :
    (stateAfter (envCfg t R) 0 s).physics_time = 0 ∧
      (stateAfter (envCfg t R) 0 s).render_time = 0 ∧
      (stateAfter (envCfg t R) 0 s).num_physics_steps = 0 ∧
      (stateAfter (envCfg t R) 0 s).num_render_steps = 0 :=
  ⟨rfl, rfl, rfl, rfl⟩

/-- Claim C8: after every environment step, the render-step count times the
render interval never exceeds the physics-step count: for every `i ≥ 0`,
decimation `D ≥ 1` and render interval `R ≥ 1`,
`num_render_steps * R ≤ num_physics_steps`. -/
theorem claim8_render_mul_le_physics (D : ℕ) (hD : 1 ≤ D) (dt : ℚ) (R : ℕ)
    (hR : 1 ≤ R) (i : ℕ) (s : TestCounters) :
    (stateAfter ⟨D, dt, R⟩ (i + 1) s).num_render_steps * R ≤
      (stateAfter ⟨D, dt, R⟩ (i + 1) s).num_physics_steps := by
  simp only [stateAfter_eq]
  exact Nat.div_mul_le_self _ _

/-- Claim C8 witness: the inequality at decimation `4`, timestep `1/200`,
render interval `10`, step `i = 4`. -/
theorem claim8_render_mul_le_physics_witness :
    1 ≤ 4 ∧ 1 ≤ 10 ∧
      (stateAfter ⟨4, 1 / 200, 10⟩ (4 + 1) ⟨1, 2, 3, 4⟩).num_render_steps * 10 ≤
        (stateAfter ⟨4, 1 / 200, 10⟩ (4 + 1) ⟨1, 2, 3, 4⟩).num_physics_steps :=
  ⟨by decide, by decide,
    claim8_render_mul_le_physics 4 (by decide) (1 / 200) 10 (by decide) 4 ⟨1, 2, 3, 4⟩⟩

/-- Claim C9: whenever the render interval `R` exactly divides the physics
count `(i+1) * D`, the accumulated render time equals the accumulated physics
time after that environment step. -/
theorem claim9_render_time_eq_physics_time (t : EnvType) (R : ℕ)
    (hR : R ∈ testedRenderIntervals) (i : ℕ) (hi : i < 50) (s : TestCounters)
    (hdvd : R ∣ (i + 1) * (envCfg t R).decimation) :
    (stateAfter (envCfg t R) (i + 1) s).render_time =
      (stateAfter (envCfg t R) (i + 1) s).physics_time := by
  have hRI : (envCfg t R).render_interval = R := by cases t <;> rfl
  simp only [stateAfter_eq, hRI]
  have h : (i + 1) * (envCfg t R).decimation / R * R =
      (i + 1) * (envCfg t R).decimation := Nat.div_mul_cancel hdvd
  have hq : (((i + 1) * (envCfg t R).decimation / R : ℕ) : ℚ) * (R : ℚ) =
      (((i + 1) * (envCfg t R).decimation : ℕ) : ℚ) := by
    exact_mod_cast congrArg (fun n : ℕ => (n : ℚ)) h
  linear_combination (envCfg t R).dt * hq

/-- Claim C9 witness: with `R = 2`, decimation `4` and `i = 0`, `R` divides
`(0+1) * 4` and the render and physics times agree. -/
theorem claim9_render_time_eq_physics_time_witness :
    2 ∈ testedRenderIntervals ∧ 0 < 50 ∧
      2 ∣ (0 + 1) * (envCfg .manager_based_env 2).decimation ∧
      (stateAfter (envCfg .manager_based_env 2) (0 + 1) ⟨1, 2, 3, 4⟩).render_time =
        (stateAfter (envCfg .manager_based_env 2) (0 + 1) ⟨1, 2, 3, 4⟩).physics_time :=
  ⟨by decide, by decide, by decide,
    claim9_render_time_eq_physics_time .manager_based_env 2 (by decide) 0 (by decide)
      ⟨1, 2, 3, 4⟩ (by decide)⟩

/-- Claim C10: the direct RL test environment never signals termination: both
done tensors returned by `_get_dones` are all-`false`, so no reset is
triggered by termination during the 50 environment steps. -/
theorem claim10_never_done :
    get_dones.1.all (fun b => !b) = true ∧ get_dones.2.all (fun b => !b) = true ∧
      resetTriggered get_dones = false ∧ numResetsIn 50 = 0 := by
  decide

end IsaacLabRendering

namespace IsaacLabAssets

/-- Claim C7: `DeformableObjectCfg` inherits from the generic asset
configuration base `AssetBaseCfg` (witnessed by the `toAssetBaseCfg`
projection), statically binds its `class_type` field to the
`DeformableObject` implementation class, and adds no field of its own: it is
determined by its `AssetBaseCfg` part. -/
theorem claim7_deformable_object_cfg_binding :
    (({} : DeformableObjectCfg).class_type = AssetClass.deformableObject) ∧
      (∀ c₁ c₂ : DeformableObjectCfg, c₁.toAssetBaseCfg = c₂.toAssetBaseCfg → c₁ = c₂) := by
  refine ⟨rfl, fun c₁ c₂ h => ?_⟩
  cases c₁
  cases c₂
  simpa using h

/-- Claim C7 witness: applying the no-extra-fields part at the default
configuration. -/
theorem claim7_deformable_object_cfg_binding_witness :
    ({} : DeformableObjectCfg) = ({} : DeformableObjectCfg) :=
  claim7_deformable_object_cfg_binding.2 {} {} rfl

end IsaacLabAssets
